import Mathlib

/-!
Verification of the contact-form relay (`main.py`, `config.py`).

A shallow embedding, in Lean 4, of the request-processing pipeline of the
FastAPI contact-form relay: the pydantic field validators of `ContactForm`,
the sliding-window rate limiter `check_rate_limit`, the mail renderer
`send_email`, and the `POST /api/contact` handler `contact_form`, together
with the request-parsing stage FastAPI runs before the handler.

External capabilities (the Supabase tenant store, the Fernet password
decryptor, the SMTP transport, the log sink, pydantic's `EmailStr`
validator) are modelled as function parameters: the pipeline is verified
for every behaviour of those collaborators.

Machine conventions: timestamps are integers counted in minutes (the code
compares `datetime` values; only their ordering and the fixed 60-minute
offset matter). Strings are Lean `String`s of Unicode characters, as in
Python.  Python's `\d` regex class (Unicode decimal digits) is modelled by
the ASCII digits, the only digits the surrounding constraints exercise.
-/

/-- The whitespace characters stripped by Python's `str.strip()` and matched
by the `\s` regex class: ASCII whitespace and separator controls plus the
Unicode space characters. -/
def isPySpace (c : Char) : Bool :=
  (9 ≤ c.toNat && c.toNat ≤ 13) || c.toNat = 32 ||
  (28 ≤ c.toNat && c.toNat ≤ 31) || c.toNat = 0x85 || c.toNat = 0xA0 ||
  c.toNat = 0x1680 || (0x2000 ≤ c.toNat && c.toNat ≤ 0x200A) ||
  c.toNat = 0x2028 || c.toNat = 0x2029 || c.toNat = 0x202F ||
  c.toNat = 0x205F || c.toNat = 0x3000

/-- Python `str.strip()` on a character list: drop leading and trailing whitespace. -/
def pyStripList (l : List Char) : List Char :=
  ((l.dropWhile isPySpace).reverse.dropWhile isPySpace).reverse

/-- Python `str.strip()`. -/
def pyStrip (s : String) : String :=
  ⟨pyStripList s.data⟩

/-- ASCII lowercasing, modelling `str.lower()` on the ASCII texts the spam
keywords are drawn from. -/
def pyLower (s : String) : String :=
  ⟨s.data.map Char.toLower⟩

/-- One repetition of a single character class with counted bounds:
`[cls]{lo,hi}` (with `hi = none` for `+`'s unbounded upper end) against a
whole string. -/
def reClassRep (cls : Char → Bool) (lo : Nat) (hi : Option Nat)
    (s : List Char) : Bool :=
  lo ≤ s.length && (match hi with | none => true | some h => s.length ≤ h)
    && s.all cls

/-- Python `re.match` with a `$`-terminated pattern: `$` matches at the end
of the string, or just before a newline that ends the string. -/
def pyMatchDollar (core : List Char → Bool) (s : List Char) : Bool :=
  core s || (s.getLast? = some '\n' && core s.dropLast)

/-- The ASCII decimal digits (48–57), modelling the regex class `\d` (see
the module docstring). -/
def isAsciiDigit (c : Char) : Bool :=
  48 ≤ c.toNat && c.toNat ≤ 57

/-- Character class of the name validators, by code point:
`[a-zA-ZÀ-ſ\s'-]` — `a`–`z` (97–122), `A`–`Z` (65–90), U+00C0–U+017F,
whitespace, apostrophe (39), hyphen (45). -/
def isNameChar (c : Char) : Bool :=
  (97 ≤ c.toNat && c.toNat ≤ 122) || (65 ≤ c.toNat && c.toNat ≤ 90) ||
  (0xC0 ≤ c.toNat && c.toNat ≤ 0x17F) || isPySpace c ||
  c.toNat = 39 || c.toNat = 45

/-- Character class of the phone validator: `[\d\s-]`. -/
def isPhoneChar (c : Char) : Bool :=
  isAsciiDigit c || isPySpace c || c.toNat = 45

/-- Character class of the zip validator: `[a-zA-Z0-9\s-]`. -/
def isZipChar (c : Char) : Bool :=
  (97 ≤ c.toNat && c.toNat ≤ 122) || (65 ≤ c.toNat && c.toNat ≤ 90) ||
  isAsciiDigit c || isPySpace c || c.toNat = 45

/-- Validator `ContactForm.validate_first_name`: strip, bound the length by
`Config.FIRST_NAME_MIN_LENGTH = 2` and `Config.FIRST_NAME_MAX_LENGTH = 50`,
then require `re.match(r"^[a-zA-ZÀ-ſ\s'-]+$", v)`. Returns the
normalized (stripped) value, or `none` for a `ValueError`. -/
def validate_first_name (v : String) : Option String :=
  let v := pyStrip v
  if v.length < 2 || 50 < v.length then none
  else if pyMatchDollar (reClassRep isNameChar 1 none) v.data then some v
  else none

/-- Validator `ContactForm.validate_last_name`: same bounds (2/50) and pattern as the
first-name validator. -/
def validate_last_name (v : String) : Option String :=
  let v := pyStrip v
  if v.length < 2 || 50 < v.length then none
  else if pyMatchDollar (reClassRep isNameChar 1 none) v.data then some v
  else none

/-- Core of the phone pattern `\+?[\d\s\-]{7,20}`: an optional leading `+`
(not counted towards the 7–20), then 7–20 characters of the class. `+` is
not in the class, so the regex engine's backtracking on `\+?` never helps:
a string starting with `+` matches only via the branch that consumes it. -/
def phoneCore (s : List Char) : Bool :=
  match s with
  | '+' :: rest => reClassRep isPhoneChar 7 (some 20) rest
  | s => reClassRep isPhoneChar 7 (some 20) s

/-- Validator `ContactForm.validate_phone`: `re.match(r'^\+?[\d\s\-]{7,20}$', v)` on
the raw, *untrimmed* value; the value passes through unchanged. -/
def validate_phone (v : String) : Option String :=
  if pyMatchDollar phoneCore v.data then some v else none

/-- Validator `ContactForm.validate_street`: strip, require length ≥ 5. -/
def validate_street (v : String) : Option String :=
  let v := pyStrip v
  if v.length < 5 then none else some v

/-- Validator `ContactForm.validate_city`: strip, require length ≥ 2. -/
def validate_city (v : String) : Option String :=
  let v := pyStrip v
  if v.length < 2 then none else some v

/-- Validator `ContactForm.validate_state`: strip, require length ≥ 2. -/
def validate_state (v : String) : Option String :=
  let v := pyStrip v
  if v.length < 2 then none else some v

/-- Validator `ContactForm.validate_zip`: strip, bound the length by
`Config.ZIP_MIN_LENGTH = 2` and `Config.ZIP_MAX_LENGTH = 10`, then require
`re.match(r"^[a-zA-Z0-9\s-]+$", v)`. -/
def validate_zip (v : String) : Option String :=
  let v := pyStrip v
  if v.length < 2 || 10 < v.length then none
  else if pyMatchDollar (reClassRep isZipChar 1 none) v.data then some v
  else none

/-- Validator `ContactForm.validate_subject`: strip, bound the length by
`Config.SUBJECT_MIN_LENGTH = 3` and `Config.SUBJECT_MAX_LENGTH = 200`. -/
def validate_subject (v : String) : Option String :=
  let v := pyStrip v
  if v.length < 3 || 200 < v.length then none else some v

/-- The `Config.SPAM_KEYWORDS` list. -/
def SPAM_KEYWORDS : List String :=
  ["viagra", "cialis", "crypto", "bitcoin",
   "lottery", "winner", "casino", "pills",
   "investment", "free money", "work from home"]

/-- Python's substring test `needle in hay` on character lists: `needle`
occurs contiguously in `hay`. -/
def strContains (needle : List Char) : List Char → Bool
  | [] => needle.isEmpty
  | c :: rest => needle.isPrefixOf (c :: rest) || strContains needle rest

/-- Validator `ContactForm.validate_message`: strip, bound the length by
`Config.MESSAGE_MIN_LENGTH = 10` and `Config.MESSAGE_MAX_LENGTH = 5000`,
then reject if any spam keyword occurs in the lowercased value
(`keyword in v.lower()`). -/
def validate_message (v : String) : Option String :=
  let v := pyStrip v
  if v.length < 10 || 5000 < v.length then none
  else if SPAM_KEYWORDS.any
      (fun k => strContains k.data (pyLower v).data) then none
  else some v

/-! ## Rate limiter (`check_rate_limit` and `rate_limit_store`) -/

/-- The initial `rate_limit_store = defaultdict(list)`: every key maps to
the empty list. -/
def emptyStore : String → List Int := fun _ => []

/-- Function `check_rate_limit(ip)` against an explicit store and clock. Prunes the
key's entries to those with `timestamp > now - 60` minutes (`hour_ago`),
denies when the pruned window already holds `Config.MAX_REQUESTS_PER_HOUR`
(`maxReq`) entries, otherwise appends `now` and allows. Returns the
decision and the updated store. -/
def check_rate_limit (maxReq : Nat) (store : String → List Int)
    (ip : String) (now : Int) : Bool × (String → List Int) :=
  let pruned := (store ip).filter (fun t => now - 60 < t)
  if maxReq ≤ pruned.length then
    (false, Function.update store ip pruned)
  else
    (true, Function.update store ip (pruned ++ [now]))

/-- Run a sequence of `check_rate_limit` calls, each a pair of key and
timestamp, threading the store. -/
def runCalls (maxReq : Nat) (store : String → List Int) :
    List (String × Int) → (String → List Int)
  | [] => store
  | (ip, t) :: rest =>
      runCalls maxReq ((check_rate_limit maxReq store ip t).2) rest

/-- The timestamps of the *allowed* calls for key `ip` in a call sequence
run from `store`. -/
def allowedLog (maxReq : Nat) (store : String → List Int) :
    List (String × Int) → String → List Int
  | [], _ => []
  | (k, t) :: rest, ip =>
      let r := check_rate_limit maxReq store k t
      (if k = ip && r.1 then [t] else []) ++ allowedLog maxReq r.2 rest ip

/-! ## Data model: submissions, tenants, responses -/

/-- The raw field values of a `POST /api/contact` JSON body, before
pydantic validation. `honeypot` is `Optional[str] = ""`: `none` models a
JSON `null`, and an absent field defaults to `some ""`. -/
structure RawForm where
  first_name : String
  last_name : String
  email : String
  phone : String
  street : String
  city : String
  state : String
  zip_code : String
  subject : String
  message : String
  honeypot : Option String
  deriving DecidableEq, Repr

/-- A validated `ContactForm` instance: the field values after the pydantic
validators have normalized them. -/
structure ContactForm where
  first_name : String
  last_name : String
  email : String
  phone : String
  street : String
  city : String
  state : String
  zip_code : String
  subject : String
  message : String
  honeypot : Option String
  deriving DecidableEq, Repr

/-- Pydantic validation of the request body: every field validator must
accept, and each field takes its validator's normalized value. `EmailStr`
is an external validator, modelled by the parameter `emailOk`; `honeypot`
has no validator and passes through. -/
def validateForm (emailOk : String → Bool) (r : RawForm) :
    Option ContactForm :=
  match validate_first_name r.first_name, validate_last_name r.last_name,
      validate_phone r.phone, validate_street r.street,
      validate_city r.city, validate_state r.state,
      validate_zip r.zip_code, validate_subject r.subject,
      validate_message r.message with
  | some fn, some ln, some ph, some st, some ci, some sa, some zi,
      some su, some me =>
      if emailOk r.email then
        some { first_name := fn, last_name := ln, email := r.email,
               phone := ph, street := st, city := ci, state := sa,
               zip_code := zi, subject := su, message := me,
               honeypot := r.honeypot }
      else none
  | _, _, _, _, _, _, _, _, _ => none

/-- A row of the Supabase `clients` table, as the handler reads it. -/
structure Client where
  id : Nat
  client_name : String
  sender_email : String
  sender_password : String
  recipient_email : String
  allowed_origins : List String
  smtp_server : String
  smtp_port : Nat
  deriving DecidableEq, Repr

/-- An HTTP response of the endpoint: an `HTTPException` with status code
and `detail`, or the JSON success payload
`{"success": true, "message": ...}`. -/
inductive HttpResponse where
  | error (status : Nat) (detail : String)
  | ok (message : String)
  deriving DecidableEq, Repr

/-! ## Mailer (`send_email`) -/

/-- The message envelope `send_email` renders: the `Subject`, `From`, `To`
and `Reply-To` headers of the `MIMEMultipart` message. (The HTML body is a
fixed presentation template interpolating the submission fields and a
server timestamp; no verified property refers to it, so it is not
modelled.) -/
structure EmailMsg where
  subject : String
  fromAddr : String
  toAddr : String
  replyTo : String
  deriving DecidableEq, Repr

/-- The envelope `send_email` builds for a form and a client row. -/
def renderEnvelope (form : ContactForm) (client : Client) : EmailMsg :=
  { subject := "[" ++ client.client_name ++ "] New Inquiry: " ++ form.subject
    fromAddr := client.sender_email
    toAddr := client.recipient_email
    replyTo := form.email }

/-- Function `send_email(form_data, client)`: decrypt the stored password
(`Config.decrypt_password`, an external capability; `none` models a raised
exception), render the message, and hand it to the SMTP transport
(`transport` models the `smtplib` session; `false` models any transport or
authentication exception). Every exception is caught and turns into
`False`. Besides the boolean result, the model records the envelope that
was rendered, if the attempt got that far. -/
def send_email (decrypt : String → Option String)
    (transport : EmailMsg → Bool) (form : ContactForm) (client : Client) :
    Bool × Option EmailMsg :=
  match decrypt client.sender_password with
  | none => (false, none)
  | some _ =>
      let msg := renderEnvelope form client
      (transport msg, some msg)

/-! ## Request pipeline (`contact_form` and the FastAPI parsing stage) -/

/-- A row the handler inserts into the Supabase `email_logs` table after a
successful delivery. -/
structure LogRecord where
  client_id : Nat
  subject : String
  sender_email : String
  deriving DecidableEq, Repr

/-- The outcome of processing one request: the HTTP response, the rate-limit
store afterwards, the mail envelope rendered (if delivery was attempted),
and the log record successfully written (if any). -/
structure PipelineResult where
  response : HttpResponse
  store : String → List Int
  sentEnvelope : Option EmailMsg
  logWritten : Option LogRecord

/-- The honeypot trap `if form.honeypot and form.honeypot.strip():` —
tripped when the field is a string that is truthy and whose stripped value
is still truthy (non-blank after trimming). -/
def honeypotTripped : Option String → Bool
  | none => false
  | some h => h != "" && pyStrip h != ""

/-- The endpoint handler `contact_form(form, request, x_api_key)`, given a
pydantic-validated form. External collaborators are parameters: `lookup`
models the Supabase `clients` lookup, where `none` stands for the
`.single()` call raising (no or several matching rows, or a store error);
`decrypt`, `transport` as in `send_email`; `logSink` models the
`email_logs` insert, `false` standing for a raised (and caught) exception.
Stages, in source order: API-key presence (`if not x_api_key`, so a
missing header or an empty value), tenant lookup, origin check
(`if not origin`, then membership in `allowed_origins`), honeypot, rate
limit keyed by `x-forwarded-for` with the peer address as fallback,
delivery, best-effort logging. -/
def contact_form (lookup : String → Option Client) (maxReq : Nat)
    (decrypt : String → Option String) (transport : EmailMsg → Bool)
    (logSink : LogRecord → Bool) (form : ContactForm)
    (xApiKey : Option String) (origin : Option String)
    (xForwardedFor : Option String) (clientHost : String)
    (store : String → List Int) (now : Int) : PipelineResult :=
  match xApiKey with
  | none =>
      ⟨.error 401 "X-API-Key header required", store, none, none⟩
  | some key =>
    if key = "" then
      ⟨.error 401 "X-API-Key header required", store, none, none⟩
    else
      match lookup key with
      | none => ⟨.error 401 "Invalid API Key", store, none, none⟩
      | some client =>
        match origin with
        | none => ⟨.error 403 "Direct API access not allowed", store, none, none⟩
        | some o =>
          if o = "" then
            ⟨.error 403 "Direct API access not allowed", store, none, none⟩
          else if o ∉ client.allowed_origins then
            ⟨.error 403 "This domain is not authorized to use this API Key",
              store, none, none⟩
          else
            let client_ip := xForwardedFor.getD clientHost
            if honeypotTripped form.honeypot then
              ⟨.error 400 "Invalid submission", store, none, none⟩
            else
              let r := check_rate_limit maxReq store client_ip now
              if !r.1 then
                ⟨.error 429 "Too many requests. Please try again later.",
                  r.2, none, none⟩
              else
                let s := send_email decrypt transport form client
                if !s.1 then
                  ⟨.error 500 "Failed to send message. Please try again.",
                    r.2, s.2, none⟩
                else
                  let entry : LogRecord :=
                    ⟨client.id, form.subject, form.email⟩
                  let logged := if logSink entry then some entry else none
                  ⟨.ok "Your message has been sent successfully!",
                    r.2, s.2, logged⟩

/-- One whole `POST /api/contact` request: FastAPI parses and validates the
JSON body against `ContactForm` *before* the handler body runs, answering
`422 Unprocessable Entity` (with a structured error list, abstracted here
as a fixed detail text) when any field validator rejects; only a validated
form reaches `contact_form`. -/
def processRequest (emailOk : String → Bool)
    (lookup : String → Option Client) (maxReq : Nat)
    (decrypt : String → Option String) (transport : EmailMsg → Bool)
    (logSink : LogRecord → Bool) (raw : RawForm)
    (xApiKey : Option String) (origin : Option String)
    (xForwardedFor : Option String) (clientHost : String)
    (store : String → List Int) (now : Int) : PipelineResult :=
  match validateForm emailOk raw with
  | none => ⟨.error 422 "request validation error", store, none, none⟩
  | some form =>
      contact_form lookup maxReq decrypt transport logSink form
        xApiKey origin xForwardedFor clientHost store now

/-! ## Specification-side predicates and shared concrete inputs -/

/-- Modelled from the spec's charset for names — "letters (incl. accented),
space, apostrophe, hyphen" — reading "letters" as the Latin letters the
rule ranges over: ASCII letters and the accented letters of the
U+00C0–U+017F block (excluding its two arithmetic signs `×` U+00D7 and
`÷` U+00F7, which are not letters). -/
def specNameLetter (c : Char) : Bool :=
  (97 ≤ c.toNat && c.toNat ≤ 122) || (65 ≤ c.toNat && c.toNat ≤ 90) ||
  (0xC0 ≤ c.toNat && c.toNat ≤ 0x17F && c.toNat ≠ 0xD7 && c.toNat ≠ 0xF7)

/-- Modelled from the spec: a name character — a letter (incl. accented),
space, apostrophe, or hyphen. -/
def specNameChar (c : Char) : Bool :=
  specNameLetter c || c.toNat = 32 || c.toNat = 39 || c.toNat = 45

/-- The remainder of a character list after an optional leading `+`. -/
def dropPlus (l : List Char) : List Char :=
  match l with
  | '+' :: r => r
  | l => l

/-- Modelled from the claim C7 as stated: the phone field is accepted
exactly when its *trimmed* value is 7–20 characters consisting of an
optional leading `+` followed by digits, spaces, and hyphens only. -/
def specPhoneClaim (v : String) : Bool :=
  let t := pyStrip v
  (7 ≤ t.length && t.length ≤ 20) &&
    (dropPlus t.data).all
      (fun c => isAsciiDigit c || c.toNat = 32 || c.toNat = 45)

/-- Modelled from the spec (amended claim C7): the phone value is
validated untrimmed — an optional leading `+`, then 7–20 characters of
digits, whitespace, and hyphens, or 21 such characters the last of which
is a newline (Python's `$` admits one trailing newline). -/
def specPhoneAmended (v : String) : Bool :=
  let b := dropPlus v.data
  (7 ≤ b.length && b.length ≤ 20 && b.all isPhoneChar)
  || (b.length = 21 && b.getLast? = some '\n' && b.all isPhoneChar)

/-- Shared concrete tenant row used by the closed witnesses below. -/
def kamicoClient : Client :=
  ⟨7, "Kamico", "sales@kamico.example", "gAAAA-ciphertext",
   "leads@kamico.example", ["https://kamico.example"], "smtp.gmail.com", 587⟩

/-- Shared concrete tenant store: one client, under one API key. -/
def demoLookup : String → Option Client :=
  fun k => if k = "KEY123" then some kamicoClient else none

/-- Shared concrete raw submission that passes every validator. -/
def demoRaw : RawForm :=
  ⟨"John", "Doe", "john@example.com", "1234567", "5 Main Street",
   "Springfield", "IL", "62701", "Hello there",
   "This is a perfectly fine message.", some ""⟩

/-- The validated form `demoRaw` yields. -/
def demoForm : ContactForm :=
  ⟨"John", "Doe", "john@example.com", "1234567", "5 Main Street",
   "Springfield", "IL", "62701", "Hello there",
   "This is a perfectly fine message.", some ""⟩

/-- Shared concrete raw submission with a tripped honeypot and an invalid
first name. -/
def badRaw : RawForm :=
  { demoRaw with first_name := "J", honeypot := some "x" }


/-! ## Helper lemmas -/

lemma check_rate_limit_other (maxReq : Nat) (store : String → List Int)
    (ip k : String) (now : Int) (h : k ≠ ip) :
    (check_rate_limit maxReq store ip now).2 k = store k := by
  unfold check_rate_limit
  by_cases hc :
      maxReq ≤ ((store ip).filter (fun t => now - 60 < t)).length <;>
    simp [hc, Function.update, h]

lemma check_rate_limit_self (maxReq : Nat) (store : String → List Int)
    (ip : String) (now : Int) :
    (check_rate_limit maxReq store ip now).2 ip =
      (store ip).filter (fun t => now - 60 < t)
        ++ (if (check_rate_limit maxReq store ip now).1 then [now] else []) := by
  unfold check_rate_limit
  by_cases hc :
      maxReq ≤ ((store ip).filter (fun t => now - 60 < t)).length <;>
    simp [hc, Function.update]

lemma check_rate_limit_fst (maxReq : Nat) (store : String → List Int)
    (ip : String) (now : Int) :
    (check_rate_limit maxReq store ip now).1 = true ↔
      ((store ip).filter (fun t => now - 60 < t)).length < maxReq := by
  unfold check_rate_limit
  by_cases hc :
      maxReq ≤ ((store ip).filter (fun t => now - 60 < t)).length
  · simp [hc]
  · simp [hc]
    omega

lemma contact_form_logSink_response (lookup : String → Option Client)
    (maxReq : Nat) (decrypt : String → Option String)
    (transport : EmailMsg → Bool) (ls₁ ls₂ : LogRecord → Bool)
    (form : ContactForm) (xkey origin xfwd : Option String) (host : String)
    (store : String → List Int) (now : Int) :
    (contact_form lookup maxReq decrypt transport ls₁ form xkey origin
        xfwd host store now).response
      = (contact_form lookup maxReq decrypt transport ls₂ form xkey origin
        xfwd host store now).response := by
  unfold contact_form
  repeat' split <;> try rfl
  dsimp only
  repeat' split <;> try rfl

lemma check_rate_limit_length_le (maxReq : Nat) (store : String → List Int)
    (ip : String) (now : Int) (h : ∀ k, (store k).length ≤ maxReq) :
    ∀ k, ((check_rate_limit maxReq store ip now).2 k).length ≤ maxReq := by
  intro k
  by_cases hk : k = ip
  · subst hk
    rw [check_rate_limit_self]
    by_cases hc : (check_rate_limit maxReq store k now).1 = true
    · have hlt := (check_rate_limit_fst maxReq store k now).mp hc
      simp [hc]
      omega
    · simp [hc]
      exact le_trans (List.length_filter_le _ _) (h k)
  · rw [check_rate_limit_other _ _ _ _ _ hk]
    exact h k

lemma runCalls_length_le (maxReq : Nat) :
    ∀ (calls : List (String × Int)) (store : String → List Int),
      (∀ k, (store k).length ≤ maxReq) →
      ∀ k, (runCalls maxReq store calls k).length ≤ maxReq := by
  intro calls
  induction calls with
  | nil => intro store h k; exact h k
  | cons hd tl ih =>
      intro store h k
      obtain ⟨k', t⟩ := hd
      exact ih _ (check_rate_limit_length_le maxReq store k' t h) k

lemma processRequest_logSink_response (emailOk : String → Bool)
    (lookup : String → Option Client) (maxReq : Nat)
    (decrypt : String → Option String) (transport : EmailMsg → Bool)
    (ls₁ ls₂ : LogRecord → Bool) (raw : RawForm)
    (xkey origin xfwd : Option String) (host : String)
    (store : String → List Int) (now : Int) :
    (processRequest emailOk lookup maxReq decrypt transport ls₁ raw xkey
        origin xfwd host store now).response
      = (processRequest emailOk lookup maxReq decrypt transport ls₂ raw xkey
        origin xfwd host store now).response := by
  unfold processRequest
  cases hv : validateForm emailOk raw with
  | none => rfl
  | some f =>
      dsimp only
      exact contact_form_logSink_response lookup maxReq decrypt
        transport ls₁ ls₂ f xkey origin xfwd host store now

lemma validateForm_honeypot (emailOk : String → Bool) (r : RawForm)
    (f : ContactForm) (h : validateForm emailOk r = some f) :
    f.honeypot = r.honeypot := by
  unfold validateForm at h
  split at h
  · split at h
    · cases h
      rfl
    · cases h
  · cases h

lemma send_email_eq_none (decrypt : String → Option String)
    (transport : EmailMsg → Bool) (f : ContactForm) (client : Client)
    (hdec : decrypt client.sender_password = none) :
    send_email decrypt transport f client = (false, none) := by
  unfold send_email
  rw [hdec]

lemma send_email_eq_some (decrypt : String → Option String)
    (transport : EmailMsg → Bool) (f : ContactForm) (client : Client)
    (pw : String) (hdec : decrypt client.sender_password = some pw) :
    send_email decrypt transport f client
      = (transport (renderEnvelope f client),
         some (renderEnvelope f client)) := by
  unfold send_email
  rw [hdec]

lemma filter_window_step (l : List Int) (t now : Int) (h : t ≤ now) :
    (l.filter (fun x => t - 60 < x)).filter (fun x => now - 60 < x)
      = l.filter (fun x => now - 60 < x) := by
  rw [List.filter_filter]
  apply List.filter_congr
  intro x _
  by_cases hx : now - 60 < x
  · have : t - 60 < x := by omega
    simp [hx, this]
  · simp [hx]

lemma runCalls_window (maxReq : Nat) :
    ∀ (calls : List (String × Int)) (store : String → List Int)
      (ip : String) (lim : Int),
      (∀ p ∈ calls, p.2 ≤ lim) →
      (runCalls maxReq store calls ip).filter (fun x => lim - 60 < x)
        = (store ip ++ allowedLog maxReq store calls ip).filter
            (fun x => lim - 60 < x) := by
  intro calls
  induction calls with
  | nil =>
      intro store ip lim _
      simp [runCalls, allowedLog]
  | cons hd tl ih =>
      intro store ip lim h
      obtain ⟨k, t⟩ := hd
      have ht : t ≤ lim := h (k, t) (List.mem_cons_self _ _)
      have htl : ∀ p ∈ tl, p.2 ≤ lim := fun p hp =>
        h p (List.mem_cons_of_mem _ hp)
      simp only [runCalls, allowedLog]
      rw [ih _ ip lim htl]
      rw [List.filter_append, List.filter_append, List.filter_append,
        ← List.append_assoc]
      congr 1
      by_cases hk : k = ip
      · subst hk
        rw [check_rate_limit_self, List.filter_append,
          filter_window_step _ _ _ ht]
        congr 1
        by_cases hall : (check_rate_limit maxReq store k t).1 = true <;>
          simp [hall]
      · rw [check_rate_limit_other maxReq store k ip t fun he => hk he.symm]
        simp [hk]

lemma mem_dropWhile_of_not {p : Char → Bool} :
    ∀ {l : List Char} {c : Char}, c ∈ l → p c = false →
      c ∈ l.dropWhile p := by
  intro l
  induction l with
  | nil => intro c h _; cases h
  | cons a l ih =>
      intro c h hc
      rw [List.dropWhile_cons]
      by_cases ha : p a = true
      · rcases List.mem_cons.mp h with rfl | hmem
        · rw [hc] at ha; cases ha
        · simp [ha]
          exact ih hmem hc
      · simp [ha]
        exact List.mem_cons.mp h

lemma mem_pyStripList {l : List Char} {c : Char} (h : c ∈ l)
    (hc : isPySpace c = false) : c ∈ pyStripList l := by
  unfold pyStripList
  rw [List.mem_reverse]
  exact mem_dropWhile_of_not (List.mem_reverse.mpr
    (mem_dropWhile_of_not h hc)) hc

lemma getLast?_pyStripList {l : List Char} {c : Char}
    (h : (pyStripList l).getLast? = some c) : isPySpace c = false := by
  unfold pyStripList at h
  rw [List.getLast?_reverse] at h
  have := List.head?_dropWhile_not isPySpace
    ((l.dropWhile isPySpace).reverse)
  rw [h] at this
  exact this

lemma digit_not_nameChar {c : Char} (h : isAsciiDigit c = true) :
    isNameChar c = false := by
  simp only [isAsciiDigit, Bool.and_eq_true, decide_eq_true_eq] at h
  simp only [isNameChar, isPySpace, Bool.or_eq_false_iff,
    Bool.and_eq_false_iff, decide_eq_false_iff_not]
  omega

lemma specNameChar_le_isNameChar {c : Char} (h : specNameChar c = true) :
    isNameChar c = true := by
  simp only [specNameChar, specNameLetter, Bool.or_eq_true,
    Bool.and_eq_true, decide_eq_true_eq] at h
  simp only [isNameChar, isPySpace, Bool.or_eq_true, Bool.and_eq_true,
    decide_eq_true_eq]
  omega

lemma isAsciiDigit_not_space {c : Char} (h : isAsciiDigit c = true) :
    isPySpace c = false := by
  simp only [isAsciiDigit, Bool.and_eq_true, decide_eq_true_eq] at h
  simp only [isPySpace, Bool.or_eq_false_iff, Bool.and_eq_false_iff,
    decide_eq_false_iff_not]
  omega

lemma pyMatchDollar_stripped (core : List Char → Bool) (l : List Char) :
    pyMatchDollar core (pyStripList l) = core (pyStripList l) := by
  unfold pyMatchDollar
  cases hl : (pyStripList l).getLast? with
  | none => simp [hl]
  | some c =>
      have hns := getLast?_pyStripList hl
      have hne : c ≠ '\n' := by
        intro h
        rw [h] at hns
        exact absurd hns (by decide)
      simp [hl, hne]

lemma dropPlus_cons_ne {c : Char} (rest : List Char) (h : c ≠ '+') :
    dropPlus (c :: rest) = c :: rest := by
  unfold dropPlus
  split
  · next r heq =>
      injection heq with h1 _
      exact absurd h1 h
  · rfl

lemma phoneCore_cons_ne {c : Char} (rest : List Char) (h : c ≠ '+') :
    phoneCore (c :: rest) = reClassRep isPhoneChar 7 (some 20) (c :: rest) := by
  unfold phoneCore
  split
  · next r heq =>
      injection heq with h1 _
      exact absurd h1 h
  · rfl

lemma dollar_rep_equiv (l : List Char) :
    pyMatchDollar (reClassRep isPhoneChar 7 (some 20)) l
      = ((7 ≤ l.length && l.length ≤ 20 && l.all isPhoneChar)
         || (l.length = 21 && l.getLast? = some '\n'
             && l.all isPhoneChar)) := by
  rcases List.eq_nil_or_concat l with rfl | ⟨L, b, rfl⟩
  · simp [pyMatchDollar, reClassRep]
  · rw [List.concat_eq_append, Bool.eq_iff_iff]
    unfold pyMatchDollar reClassRep
    simp only [List.getLast?_concat, List.dropLast_concat, List.all_append,
      List.length_append, List.all_cons, List.all_nil, List.length_cons,
      List.length_nil, Option.some.injEq, Bool.or_eq_true,
      Bool.and_eq_true, decide_eq_true_eq, Bool.and_true]
    by_cases hb : b = '\n'
    · subst hb
      have hcb : isPhoneChar '\n' = true := by decide
      by_cases hA : L.all isPhoneChar = true
      · simp only [hA, hcb, and_true, true_and]
        omega
      · simp [hA, hcb]
    · by_cases hA : L.all isPhoneChar = true
      · by_cases hcb : isPhoneChar b = true
        · simp only [hA, hcb, and_true, true_and]
          simp [hb]
        · simp [hA, hcb]
          intro h
          exact absurd h hb
      · simp [hA]

lemma pyMatchDollar_phoneCore (l : List Char) :
    pyMatchDollar phoneCore l
      = pyMatchDollar (reClassRep isPhoneChar 7 (some 20)) (dropPlus l) := by
  cases l with
  | nil => rfl
  | cons c rest =>
      by_cases hc : c = '+'
      · subst hc
        rw [show dropPlus ('+' :: rest) = rest from rfl]
        cases rest with
        | nil => rfl
        | cons r rs =>
            unfold pyMatchDollar
            rw [show phoneCore ('+' :: r :: rs)
                = reClassRep isPhoneChar 7 (some 20) (r :: rs) from rfl]
            rw [List.getLast?_cons_cons, List.dropLast_cons₂]
            rw [show phoneCore ('+' :: (r :: rs).dropLast)
                = reClassRep isPhoneChar 7 (some 20) ((r :: rs).dropLast)
              from rfl]
      · rw [dropPlus_cons_ne rest hc]
        unfold pyMatchDollar
        rw [phoneCore_cons_ne rest hc]
        cases rs : rest with
        | nil => rfl
        | cons r rs' =>
            rw [List.dropLast_cons₂, phoneCore_cons_ne _ hc]

lemma validate_phone_isSome (v : String) :
    (validate_phone v).isSome = specPhoneAmended v := by
  unfold validate_phone specPhoneAmended
  rw [show pyMatchDollar phoneCore v.data
      = pyMatchDollar (reClassRep isPhoneChar 7 (some 20)) (dropPlus v.data)
    from pyMatchDollar_phoneCore v.data]
  rw [dollar_rep_equiv (dropPlus v.data)]
  cases hX : ((7 ≤ (dropPlus v.data).length
        && (dropPlus v.data).length ≤ 20
        && (dropPlus v.data).all isPhoneChar)
      || ((dropPlus v.data).length = 21
          && (dropPlus v.data).getLast? = some '\n'
          && (dropPlus v.data).all isPhoneChar)) <;>
    simp [hX]


/-! ## The claims -/

/-- C1 counterexample: a request with a tripped honeypot, a rate-limited
client IP and an invalid first name is answered by the field-validation
stage (422), although the claimed stage order places the honeypot
rejection (400) and the rate-limit check (429) before field validation:
validation runs at body parsing, before every handler stage. -/
theorem pipeline_order_counterexample :
    ((check_rate_limit 5
        (fun k => if k = "1.2.3.4" then [0, 0, 0, 0, 0] else [])
        "1.2.3.4" 0).1 = false)
    ∧ validateForm (fun _ => true) { demoRaw with first_name := "J" } = none
    ∧ (processRequest (fun _ => true) demoLookup 5 (fun _ => some "pw")
        (fun _ => true) (fun _ => true) { demoRaw with first_name := "J" }
        (some "KEY123") (some "https://kamico.example") none "1.2.3.4"
        (fun k => if k = "1.2.3.4" then [0, 0, 0, 0, 0] else [])
        0).response = HttpResponse.error 422 "request validation error"
    ∧ HttpResponse.error 422 "request validation error"
      ≠ HttpResponse.error 429 "Too many requests. Please try again later." := by
  refine ⟨by decide, by decide, by decide, by decide⟩

/-- C1 (amended): the pipeline stages execute in the strict order: field
validation (422, at request parsing, before the handler runs), API-key
presence (401), tenant resolution (401), origin authorization (403),
honeypot (400), rate limit (429), delivery (500), logging (best-effort,
non-terminal); each failing stage is terminal, with its own response. -/
theorem pipeline_stage_order :
    ∀ (emailOk : String → Bool) (lookup : String → Option Client)
      (maxReq : Nat) (decrypt : String → Option String)
      (transport : EmailMsg → Bool) (logSink : LogRecord → Bool)
      (raw : RawForm) (xkey origin xfwd : Option String) (host : String)
      (store : String → List Int) (now : Int) (res : PipelineResult),
    res = processRequest emailOk lookup maxReq decrypt transport logSink
        raw xkey origin xfwd host store now →
    (validateForm emailOk raw = none →
        res.response = HttpResponse.error 422 "request validation error")
    ∧ ∀ f, validateForm emailOk raw = some f →
        ((xkey = none ∨ xkey = some "") →
            res.response = HttpResponse.error 401 "X-API-Key header required")
        ∧ ∀ key, xkey = some key → key ≠ "" →
            (lookup key = none →
                res.response = HttpResponse.error 401 "Invalid API Key")
            ∧ ∀ client, lookup key = some client →
                ((origin = none ∨ origin = some "") →
                    res.response
                      = HttpResponse.error 403 "Direct API access not allowed")
                ∧ ∀ o, origin = some o → o ≠ "" →
                    (o ∉ client.allowed_origins →
                        res.response = HttpResponse.error 403
                          "This domain is not authorized to use this API Key")
                    ∧ (o ∈ client.allowed_origins →
                        (honeypotTripped f.honeypot = true →
                            res.response
                              = HttpResponse.error 400 "Invalid submission")
                        ∧ (honeypotTripped f.honeypot = false →
                            ((check_rate_limit maxReq store (xfwd.getD host)
                                  now).1 = false →
                                res.response = HttpResponse.error 429
                                  "Too many requests. Please try again later.")
                            ∧ ((check_rate_limit maxReq store (xfwd.getD host)
                                  now).1 = true →
                                ((send_email decrypt transport f client).1
                                    = false →
                                    res.response = HttpResponse.error 500
                                      "Failed to send message. Please try again.")
                                ∧ ((send_email decrypt transport f client).1
                                    = true →
                                    res.response = HttpResponse.ok
                                      "Your message has been sent successfully!")))) := by
  intro emailOk lookup maxReq decrypt transport logSink raw xkey origin
    xfwd host store now res hres
  subst hres
  constructor
  · intro h
    simp [processRequest, h]
  · intro f hf
    constructor
    · rintro (rfl | rfl) <;> simp [processRequest, hf, contact_form]
    · rintro key rfl hk
      constructor
      · intro hl
        simp [processRequest, hf, contact_form, hk, hl]
      · intro client hl
        constructor
        · rintro (rfl | rfl) <;>
            simp [processRequest, hf, contact_form, hk, hl]
        · rintro o rfl ho
          constructor
          · intro hmem
            simp [processRequest, hf, contact_form, hk, hl, ho, hmem]
          · intro hmem
            constructor
            · intro hhp
              simp [processRequest, hf, contact_form, hk, hl, ho, hmem, hhp]
            · intro hhp
              constructor
              · intro hrl
                simp [processRequest, hf, contact_form, hk, hl, ho, hmem,
                  hhp, hrl]
              · intro hrl
                constructor
                · intro hsend
                  simp [processRequest, hf, contact_form, hk, hl, ho, hmem,
                    hhp, hrl, hsend]
                · intro hsend
                  simp [processRequest, hf, contact_form, hk, hl, ho, hmem,
                    hhp, hrl, hsend, apply_ite]

/-- C1 witness -/
theorem pipeline_stage_order_witness :
    (processRequest (fun _ => true) demoLookup 5 (fun _ => some "pw")
        (fun _ => true) (fun _ => true) demoRaw (some "KEY123")
        (some "https://kamico.example") none "1.2.3.4" emptyStore
        0).response
      = HttpResponse.ok "Your message has been sent successfully!" :=
  ((((((pipeline_stage_order (fun _ => true) demoLookup 5
      (fun _ => some "pw") (fun _ => true) (fun _ => true) demoRaw
      (some "KEY123") (some "https://kamico.example") none "1.2.3.4"
      emptyStore 0 _ rfl).2 demoForm (by decide)).2 "KEY123" rfl
      (by decide)).2 kamicoClient (by decide)).2 "https://kamico.example"
      rfl (by decide)).2 (by decide)).2 (by decide) |>.2 (by decide)
      |>.2 (by decide)

/-- C2: a request whose X-API-Key is missing or matches no stored tenant is
answered 401, a request whose key resolves to a tenant but whose Origin
header is absent, empty, or not a literal member of the tenant's
allowed_origins list is answered 403, and the two status codes differ. -/
theorem auth_status_codes :
    ∀ (lookup : String → Option Client) (maxReq : Nat)
      (decrypt : String → Option String) (transport : EmailMsg → Bool)
      (logSink : LogRecord → Bool) (form : ContactForm)
      (origin xfwd : Option String) (host : String)
      (store : String → List Int) (now : Int),
    ((contact_form lookup maxReq decrypt transport logSink form none origin
        xfwd host store now).response
      = HttpResponse.error 401 "X-API-Key header required")
    ∧ (∀ key, key ≠ "" → lookup key = none →
        (contact_form lookup maxReq decrypt transport logSink form
            (some key) origin xfwd host store now).response
          = HttpResponse.error 401 "Invalid API Key")
    ∧ (∀ key client, key ≠ "" → lookup key = some client →
        (origin = none ∨ origin = some "" →
          (contact_form lookup maxReq decrypt transport logSink form
              (some key) origin xfwd host store now).response
            = HttpResponse.error 403 "Direct API access not allowed")
        ∧ (∀ o, origin = some o → o ≠ "" → o ∉ client.allowed_origins →
            (contact_form lookup maxReq decrypt transport logSink form
                (some key) origin xfwd host store now).response
              = HttpResponse.error 403
                  "This domain is not authorized to use this API Key"))
    ∧ (401 : Nat) ≠ 403 := by
  intro lookup maxReq decrypt transport logSink form origin xfwd host store
    now
  refine ⟨rfl, ?_, ?_, by decide⟩
  · intro key hk hl
    simp [contact_form, hk, hl]
  · intro key client hk hl
    constructor
    · rintro (rfl | rfl) <;> simp [contact_form, hk, hl]
    · rintro o rfl ho hmem
      simp [contact_form, hk, hl, ho, hmem]

/-- C2 witness -/
theorem auth_status_codes_witness :
    ((contact_form demoLookup 5 (fun _ => some "pw") (fun _ => true)
        (fun _ => true) demoForm (some "BADKEY")
        (some "https://evil.example") none "1.2.3.4" emptyStore 0).response
      = HttpResponse.error 401 "Invalid API Key")
    ∧ ((contact_form demoLookup 5 (fun _ => some "pw") (fun _ => true)
        (fun _ => true) demoForm (some "KEY123")
        (some "https://evil.example") none "1.2.3.4" emptyStore 0).response
      = HttpResponse.error 403
          "This domain is not authorized to use this API Key") :=
  ⟨(auth_status_codes demoLookup 5 (fun _ => some "pw") (fun _ => true)
      (fun _ => true) demoForm (some "https://evil.example") none "1.2.3.4"
      emptyStore 0).2.1 "BADKEY" (by decide) (by decide),
   ((auth_status_codes demoLookup 5 (fun _ => some "pw") (fun _ => true)
      (fun _ => true) demoForm (some "https://evil.example") none "1.2.3.4"
      emptyStore 0).2.2.1 "KEY123" kamicoClient (by decide)
      (by decide)).2 "https://evil.example" rfl (by decide) (by decide)⟩

/-- C3 counterexample: a request whose honeypot is non-blank after trimming
but whose first name is invalid is answered 422 by field validation, not
the generic 400, so the honeypot response is not independent of the other
fields' validity. -/
theorem honeypot_claim_counterexample :
    honeypotTripped badRaw.honeypot = true
    ∧ (processRequest (fun _ => true) demoLookup 5 (fun _ => some "pw")
        (fun _ => true) (fun _ => true) badRaw (some "KEY123")
        (some "https://kamico.example") none "1.2.3.4" emptyStore 0).response
      = HttpResponse.error 422 "request validation error"
    ∧ HttpResponse.error 422 "request validation error"
      ≠ HttpResponse.error 400 "Invalid submission" := by
  refine ⟨by decide, by decide, by decide⟩

/-- C3 (amended): a request that passes the API-key, tenant and origin checks
and whose fields parse successfully is answered with the generic
400 Invalid submission whenever its honeypot field is non-blank after
trimming. -/
theorem honeypot_generic_rejection
    (emailOk : String → Bool) (lookup : String → Option Client)
    (maxReq : Nat) (decrypt : String → Option String)
    (transport : EmailMsg → Bool) (logSink : LogRecord → Bool)
    (raw : RawForm) (key : String) (client : Client) (o : String)
    (xfwd : Option String) (host : String) (store : String → List Int)
    (now : Int) (f : ContactForm)
    (hv : validateForm emailOk raw = some f)
    (hk : key ≠ "") (hl : lookup key = some client)
    (ho : o ≠ "") (hmem : o ∈ client.allowed_origins)
    (htrip : honeypotTripped raw.honeypot = true) :
    (processRequest emailOk lookup maxReq decrypt transport logSink raw
        (some key) (some o) xfwd host store now).response
      = HttpResponse.error 400 "Invalid submission" := by
  have hhp : honeypotTripped f.honeypot = true := by
    rw [validateForm_honeypot emailOk raw f hv]
    exact htrip
  unfold processRequest
  rw [hv]
  dsimp only
  simp [contact_form, hk, hl, ho, hmem, hhp]

/-- C3 witness -/
theorem honeypot_generic_rejection_witness :
    (processRequest (fun _ => true) demoLookup 5 (fun _ => some "pw")
        (fun _ => true) (fun _ => true)
        { demoRaw with honeypot := some "x" } (some "KEY123")
        (some "https://kamico.example") none "1.2.3.4" emptyStore 0).response
      = HttpResponse.error 400 "Invalid submission" :=
  honeypot_generic_rejection (fun _ => true) demoLookup 5
    (fun _ => some "pw") (fun _ => true) (fun _ => true)
    { demoRaw with honeypot := some "x" } "KEY123" kamicoClient
    "https://kamico.example" none "1.2.3.4" emptyStore 0
    { demoForm with honeypot := some "x" } (by decide) (by decide)
    (by decide) (by decide) (by decide) (by decide)

/-- C4: over any call sequence from the empty store whose timestamps do not
exceed the current time, a further call is allowed iff the number of
previously allowed calls for that key with timestamps inside the trailing
60 minutes is strictly below the maximum, and the current timestamp is
appended exactly when the call is allowed; with max = 5, five calls at
time 0 are all allowed, a sixth at time 0 is denied, and a call 60 minutes
after the first is allowed again. -/
theorem rate_limit_sliding_window :
    (∀ (maxReq : Nat) (calls : List (String × Int)) (ip : String)
        (now : Int),
      (∀ p ∈ calls, p.2 ≤ now) →
      ((check_rate_limit maxReq (runCalls maxReq emptyStore calls) ip
            now).1 = true
        ↔ ((allowedLog maxReq emptyStore calls ip).filter
            (fun x => now - 60 < x)).length < maxReq)
      ∧ (check_rate_limit maxReq (runCalls maxReq emptyStore calls) ip
            now).2 ip
          = (runCalls maxReq emptyStore calls ip).filter
              (fun x => now - 60 < x)
            ++ (if (check_rate_limit maxReq (runCalls maxReq emptyStore
                  calls) ip now).1 then [now] else []))
    ∧ (allowedLog 5 emptyStore
          (List.replicate 5 ("203.0.113.9", (0 : Int))) "203.0.113.9"
        = [0, 0, 0, 0, 0]
      ∧ (check_rate_limit 5
          (runCalls 5 emptyStore
            (List.replicate 5 ("203.0.113.9", (0 : Int))))
          "203.0.113.9" 0).1 = false
      ∧ (check_rate_limit 5
          ((check_rate_limit 5
            (runCalls 5 emptyStore
              (List.replicate 5 ("203.0.113.9", (0 : Int))))
            "203.0.113.9" 0).2)
          "203.0.113.9" 60).1 = true) := by
  constructor
  · intro maxReq calls ip now h
    constructor
    · rw [check_rate_limit_fst,
        runCalls_window maxReq calls emptyStore ip now h]
      simp [emptyStore]
    · exact check_rate_limit_self maxReq (runCalls maxReq emptyStore calls)
        ip now
  · refine ⟨by decide, by decide, by decide⟩

/-- C4 witness -/
theorem rate_limit_sliding_window_witness :
    ((check_rate_limit 5
          (runCalls 5 emptyStore [("198.51.100.7", (0 : Int))])
          "198.51.100.7" 30).1 = true
      ↔ ((allowedLog 5 emptyStore [("198.51.100.7", (0 : Int))]
            "198.51.100.7").filter
          (fun x => (30 : Int) - 60 < x)).length < 5)
    ∧ (check_rate_limit 5
          (runCalls 5 emptyStore [("198.51.100.7", (0 : Int))])
          "198.51.100.7" 30).2 "198.51.100.7"
        = (runCalls 5 emptyStore [("198.51.100.7", (0 : Int))]
              "198.51.100.7").filter (fun x => (30 : Int) - 60 < x)
          ++ (if (check_rate_limit 5
                (runCalls 5 emptyStore [("198.51.100.7", (0 : Int))])
                "198.51.100.7" 30).1 then [(30 : Int)] else []) :=
  rate_limit_sliding_window.1 5 [("198.51.100.7", (0 : Int))]
    "198.51.100.7" 30 (by decide)

/-- C5: after a rate-limiter check for a key whose stored timestamps are in
the past and within the length bound, the key's stored sequence holds only
timestamps inside the trailing 60-minute window and its length is at most
the configured maximum; every store reachable from the empty store keeps
every key's length at most the maximum. -/
theorem rate_limit_window_invariant :
    (∀ (maxReq : Nat) (store : String → List Int) (ip : String) (now : Int),
      (∀ t ∈ store ip, t ≤ now) → (store ip).length ≤ maxReq →
        (∀ t ∈ (check_rate_limit maxReq store ip now).2 ip,
            now - 60 < t ∧ t ≤ now)
        ∧ ((check_rate_limit maxReq store ip now).2 ip).length ≤ maxReq)
    ∧ (∀ (maxReq : Nat) (calls : List (String × Int)) (k : String),
        (runCalls maxReq emptyStore calls k).length ≤ maxReq) := by
  constructor
  · intro maxReq store ip now hle hlen
    rw [check_rate_limit_self]
    constructor
    · intro t ht
      rcases List.mem_append.mp ht with h1 | h2
      · rcases List.mem_filter.mp h1 with ⟨hmem, hwin⟩
        have := hle t hmem
        constructor
        · exact by simpa using hwin
        · exact this
      · by_cases hc : (check_rate_limit maxReq store ip now).1 = true <;>
          simp [hc] at h2
        subst h2
        omega
    · by_cases hc : (check_rate_limit maxReq store ip now).1 = true
      · have hlt := (check_rate_limit_fst maxReq store ip now).mp hc
        simp [hc]
        omega
      · simp [hc]
        exact le_trans (List.length_filter_le _ _) hlen
  · intro maxReq calls k
    exact runCalls_length_le maxReq calls emptyStore (fun _ => Nat.zero_le _) k

/-- C5 witness -/
theorem rate_limit_window_invariant_witness :
    (∀ t ∈ (check_rate_limit 5 emptyStore "a" 0).2 "a", (0:Int) - 60 < t ∧ t ≤ 0)
    ∧ ((check_rate_limit 5 emptyStore "a" 0).2 "a").length ≤ 5 :=
  rate_limit_window_invariant.1 5 emptyStore "a" 0 (by decide) (by decide)

/-- C6: a first or last name whose trimmed length is outside 2-50, or which
contains a digit, fails validation; a name with trimmed length within
2-50 consisting only of letters (including accented letters), spaces,
apostrophes and hyphens is accepted. -/
theorem name_validation (v : String) :
    (((pyStrip v).length < 2 ∨ 50 < (pyStrip v).length
        ∨ ∃ c ∈ v.data, isAsciiDigit c = true) →
      validate_first_name v = none ∧ validate_last_name v = none)
    ∧ (2 ≤ (pyStrip v).length → (pyStrip v).length ≤ 50 →
        (∀ c ∈ (pyStrip v).data, specNameChar c = true) →
        validate_first_name v = some (pyStrip v)
          ∧ validate_last_name v = some (pyStrip v)) := by
  have heq : validate_last_name = validate_first_name := rfl
  constructor
  · intro h
    suffices hs : validate_first_name v = none by
      exact ⟨hs, by rw [heq]; exact hs⟩
    by_cases hlen : ((pyStrip v).length < 2 || 50 < (pyStrip v).length)
        = true
    · simp [validate_first_name, hlen]
    · rcases h with h | h | ⟨c, hc, hd⟩
      · simp at hlen
        omega
      · simp at hlen
        omega
      · have hmem : c ∈ (pyStrip v).data :=
          mem_pyStripList hc (isAsciiDigit_not_space hd)
        have hcore : reClassRep isNameChar 1 none (pyStrip v).data
            = false := by
          have hall : (pyStrip v).data.all isNameChar = false :=
            List.all_eq_false.mpr ⟨c, hmem, by
              rw [digit_not_nameChar hd]
              exact Bool.false_ne_true⟩
          simp [reClassRep, hall]
        have hmatch : pyMatchDollar (reClassRep isNameChar 1 none)
            (pyStrip v).data = false := by
          rw [show (pyStrip v).data = pyStripList v.data from rfl,
            pyMatchDollar_stripped]
          exact hcore
        simp [validate_first_name, eq_false_of_ne_true hlen, hmatch]
  · intro h2 h50 hall
    suffices hs : validate_first_name v = some (pyStrip v) by
      exact ⟨hs, by rw [heq]; exact hs⟩
    have hcond : ((pyStrip v).length < 2 || 50 < (pyStrip v).length)
        = false := by
      simp
      omega
    have hcore : reClassRep isNameChar 1 none (pyStrip v).data = true := by
      simp only [reClassRep, Option.isSome, Bool.and_eq_true,
        decide_eq_true_eq, List.all_eq_true]
      refine ⟨⟨?_, trivial⟩, ?_⟩
      · have hl : (pyStrip v).length = (pyStrip v).data.length := rfl
        omega
      · intro c hc
        exact specNameChar_le_isNameChar (hall c hc)
    have hmatch : pyMatchDollar (reClassRep isNameChar 1 none)
        (pyStrip v).data = true := by
      rw [show (pyStrip v).data = pyStripList v.data from rfl,
        pyMatchDollar_stripped]
      exact hcore
    simp [validate_first_name, hcond, hmatch]

/-- C6 witness -/
theorem name_validation_witness :
    (2 ≤ (pyStrip "  Anne-Marie O'Neil  ").length
      ∧ (pyStrip "  Anne-Marie O'Neil  ").length ≤ 50)
    ∧ validate_first_name "  Anne-Marie O'Neil  "
        = some (pyStrip "  Anne-Marie O'Neil  ")
    ∧ validate_last_name "  Anne-Marie O'Neil  "
        = some (pyStrip "  Anne-Marie O'Neil  ") := by
  refine ⟨by decide, ?_, ?_⟩
  · exact ((name_validation "  Anne-Marie O'Neil  ").2 (by decide)
      (by decide) (by decide)).1
  · exact ((name_validation "  Anne-Marie O'Neil  ").2 (by decide)
      (by decide) (by decide)).2

/-- C7 counterexample: the phone validator does not trim - the raw value
123456 followed by a space is accepted (seven characters of the class),
although its trimmed value has only six characters, refuting the claimed
trimmed-value characterization. -/
theorem phone_trim_counterexample :
    (validate_phone "123456 ").isSome = true
    ∧ specPhoneClaim "123456 " = false := by
  refine ⟨by decide, by decide⟩

/-- C7 (amended): each of the eight stripped fields depends only on the
trimmed value, while the phone field is validated on the raw value: it is
accepted exactly when an optional leading plus sign is followed by 7-20
characters of digits, whitespace and hyphens (or 21 with a final
newline, admitted by the regex dollar anchor). -/
theorem trimming_before_checks :
    (∀ v w : String, pyStrip v = pyStrip w →
      validate_first_name v = validate_first_name w
      ∧ validate_last_name v = validate_last_name w
      ∧ validate_street v = validate_street w
      ∧ validate_city v = validate_city w
      ∧ validate_state v = validate_state w
      ∧ validate_zip v = validate_zip w
      ∧ validate_subject v = validate_subject w
      ∧ validate_message v = validate_message w)
    ∧ (∀ v : String, (validate_phone v).isSome = specPhoneAmended v) := by
  constructor
  · intro v w h
    unfold validate_first_name validate_last_name validate_street
      validate_city validate_state validate_zip validate_subject
      validate_message
    rw [h]
    exact ⟨rfl, rfl, rfl, rfl, rfl, rfl, rfl, rfl⟩
  · exact validate_phone_isSome

/-- C7 witness -/
theorem trimming_before_checks_witness :
    validate_subject "  hi there  " = validate_subject "hi there"
    ∧ (validate_phone "+12 345-67").isSome = specPhoneAmended "+12 345-67" :=
  ⟨(trimming_before_checks.1 "  hi there  " "hi there"
      (by decide)).2.2.2.2.2.2.1,
   trimming_before_checks.2 "+12 345-67"⟩

/-- C8: whenever the pipeline renders a message envelope for a resolved
tenant and a validated submission, the envelope's sender is the tenant's
sender_email, its recipient the tenant's recipient_email, its reply-to the
submission's email, and its subject is the bracketed tenant display name
followed by New Inquiry: and the submission subject. -/
theorem envelope_fields (emailOk : String → Bool)
    (lookup : String → Option Client) (maxReq : Nat)
    (decrypt : String → Option String) (transport : EmailMsg → Bool)
    (logSink : LogRecord → Bool) (raw : RawForm) (key : String)
    (origin xfwd : Option String) (host : String)
    (store : String → List Int) (now : Int) (f : ContactForm)
    (client : Client) (env : EmailMsg)
    (hv : validateForm emailOk raw = some f)
    (hl : lookup key = some client)
    (henv : (processRequest emailOk lookup maxReq decrypt transport logSink
        raw (some key) origin xfwd host store now).sentEnvelope = some env) :
    env.fromAddr = client.sender_email
    ∧ env.toAddr = client.recipient_email
    ∧ env.replyTo = f.email
    ∧ env.subject
        = "[" ++ client.client_name ++ "] New Inquiry: " ++ f.subject := by
  unfold processRequest at henv
  rw [hv] at henv
  dsimp only at henv
  unfold contact_form at henv
  by_cases hk : key = ""
  · simp [hk] at henv
  · simp only [hk, if_false, hl] at henv
    cases origin with
    | none => simp at henv
    | some o =>
      by_cases ho : o = ""
      · simp [ho] at henv
      · by_cases hmem : o ∈ client.allowed_origins
        · by_cases hhp : honeypotTripped f.honeypot = true
          · simp [ho, hmem, hhp] at henv
          · by_cases hrl : (check_rate_limit maxReq store
                (xfwd.getD host) now).1 = true
            · cases hdec : decrypt client.sender_password with
              | none =>
                  rw [send_email_eq_none decrypt transport f client hdec]
                    at henv
                  simp [ho, hmem, hhp, hrl] at henv
              | some pw =>
                  rw [send_email_eq_some decrypt transport f client pw hdec]
                    at henv
                  by_cases htr : transport (renderEnvelope f client) = true
                  · simp [ho, hmem, hhp, hrl, htr] at henv
                    subst henv
                    exact ⟨rfl, rfl, rfl, rfl⟩
                  · have htr' := eq_false_of_ne_true htr
                    simp [ho, hmem, hhp, hrl, htr'] at henv
                    subst henv
                    exact ⟨rfl, rfl, rfl, rfl⟩
            · have hrl' := eq_false_of_ne_true hrl
              simp [ho, hmem, hhp, hrl'] at henv
        · simp [ho, hmem] at henv

/-- C8 witness -/
theorem envelope_fields_witness :
    EmailMsg.fromAddr
        ⟨"[Kamico] New Inquiry: Hello there", "sales@kamico.example",
         "leads@kamico.example", "john@example.com"⟩
      = kamicoClient.sender_email
    ∧ EmailMsg.toAddr
        ⟨"[Kamico] New Inquiry: Hello there", "sales@kamico.example",
         "leads@kamico.example", "john@example.com"⟩
      = kamicoClient.recipient_email
    ∧ EmailMsg.replyTo
        ⟨"[Kamico] New Inquiry: Hello there", "sales@kamico.example",
         "leads@kamico.example", "john@example.com"⟩
      = demoForm.email
    ∧ EmailMsg.subject
        ⟨"[Kamico] New Inquiry: Hello there", "sales@kamico.example",
         "leads@kamico.example", "john@example.com"⟩
      = "[" ++ kamicoClient.client_name ++ "] New Inquiry: "
          ++ demoForm.subject :=
  envelope_fields (fun _ => true) demoLookup 5 (fun _ => some "pw")
    (fun _ => true) (fun _ => true) demoRaw "KEY123"
    (some "https://kamico.example") none "1.2.3.4" emptyStore 0 demoForm
    kamicoClient
    ⟨"[Kamico] New Inquiry: Hello there", "sales@kamico.example",
     "leads@kamico.example", "john@example.com"⟩
    (by decide) (by decide) (by decide)

/-- C9: the HTTP response of a request never depends on the behaviour of the
delivery-log sink; in particular, when a perfect log sink yields the 200
success payload, every failing log sink yields the same payload - no
log-write error escapes the pipeline. -/
theorem logging_nonfatal :
    (∀ (emailOk : String → Bool) (lookup : String → Option Client)
        (maxReq : Nat) (decrypt : String → Option String)
        (transport : EmailMsg → Bool) (ls₁ ls₂ : LogRecord → Bool)
        (raw : RawForm) (xkey origin xfwd : Option String) (host : String)
        (store : String → List Int) (now : Int),
      (processRequest emailOk lookup maxReq decrypt transport ls₁ raw xkey
          origin xfwd host store now).response
        = (processRequest emailOk lookup maxReq decrypt transport ls₂ raw
          xkey origin xfwd host store now).response)
    ∧ (∀ (emailOk : String → Bool) (lookup : String → Option Client)
        (maxReq : Nat) (decrypt : String → Option String)
        (transport : EmailMsg → Bool) (ls : LogRecord → Bool)
        (raw : RawForm) (xkey origin xfwd : Option String) (host : String)
        (store : String → List Int) (now : Int) (m : String),
      (processRequest emailOk lookup maxReq decrypt transport
          (fun _ => true) raw xkey origin xfwd host store now).response
        = HttpResponse.ok m →
      (processRequest emailOk lookup maxReq decrypt transport ls raw xkey
          origin xfwd host store now).response = HttpResponse.ok m) := by
  constructor
  · intro emailOk lookup maxReq decrypt transport ls₁ ls₂ raw xkey origin
      xfwd host store now
    exact processRequest_logSink_response emailOk lookup maxReq decrypt
      transport ls₁ ls₂ raw xkey origin xfwd host store now
  · intro emailOk lookup maxReq decrypt transport ls raw xkey origin xfwd
      host store now m h
    exact (processRequest_logSink_response emailOk lookup maxReq decrypt
      transport ls (fun _ => true) raw xkey origin xfwd host store now).trans h

/-- C9 witness -/
theorem logging_nonfatal_witness :
    (processRequest (fun _ => true) demoLookup 5 (fun _ => some "pw")
        (fun _ => true) (fun _ => false) demoRaw (some "KEY123")
        (some "https://kamico.example") none "1.2.3.4" emptyStore 0).response
      = HttpResponse.ok "Your message has been sent successfully!" :=
  logging_nonfatal.2 (fun _ => true) demoLookup 5 (fun _ => some "pw")
    (fun _ => true) (fun _ => false) demoRaw (some "KEY123")
    (some "https://kamico.example") none "1.2.3.4" emptyStore 0
    "Your message has been sent successfully!" (by decide)

/-- C10: a rate-limiter call for one key leaves the stored window of every
other key unchanged. -/
theorem rate_limit_frame (maxReq : Nat) (store : String → List Int)
    (ip k : String) (now : Int) (h : k ≠ ip) :
    (check_rate_limit maxReq store ip now).2 k = store k :=
  check_rate_limit_other maxReq store ip k now h

/-- C10 witness -/
theorem rate_limit_frame_witness :
    (check_rate_limit 5 emptyStore "a" 0).2 "b" = emptyStore "b" :=
  rate_limit_frame 5 emptyStore "a" "b" 0 (by decide)

